import Mathlib

/-!
Shallow embedding of the multi-provider travel server (`travel_server.py`):
the parameter builders, validation rules, result normalizers and error
classification of each tool, together with theorems checking the
specification's claims about them.

Conventions of the embedding:
* Python dictionaries are association lists in insertion order; assigning to a
  key (`params[k] = v`) is `dictSet`, which overwrites an existing binding in
  place and otherwise appends.
* Python `None` is `Option.none`; Python truthiness of optional strings,
  ints, lists is made explicit (`optStrT`, `optIntT`, `optListT`, `intT`).
* Python floats are modelled as rationals (`ℚ`); `round(x, 2)` is `round2`.
* The outbound network is an oracle passed to each tool: an `HttpRequest`
  (url, query parameters, optional timeout in seconds) mapped to an outcome.
  A tool result that is equal for every oracle made no outbound call.
* `datetime.now().isoformat()` is a `now : String` argument.
* Tools that return `json.dumps(obj)` are modelled as returning the
  structured object itself.
-/

/-- JSON-like values exchanged with providers. Python floats are rationals. -/
inductive JValue where
  | null
  | bool (b : Bool)
  | int (n : Int)
  | num (q : ℚ)
  | str (s : String)
  | list (xs : List JValue)
  | obj (kvs : List (String × JValue))

/-- A Python-dict assignment `d[k] = v`: overwrite the binding in place if the
key is present, append otherwise (insertion order preserved). -/
def dictSet : List (String × JValue) → String → JValue → List (String × JValue)
  | [], k, v => [(k, v)]
  | (k', v') :: rest, k, v =>
      if k' = k then (k, v) :: rest else (k', v') :: dictSet rest k v

/-- Dictionary lookup: first binding for the key, if any. -/
def dlookup : List (String × JValue) → String → Option JValue
  | [], _ => none
  | (k', v') :: rest, k => if k' = k then some v' else dlookup rest k

/-- Python `d.get(k, default)`. -/
def dgetD (d : List (String × JValue)) (k : String) (dflt : JValue) : JValue :=
  (dlookup d k).getD dflt

/-- Conditional Python-dict assignment: `if cond: d[k] = v` (the building
block of every parameter builder in the source). -/
def dictSetIf (cond : Bool) (p : List (String × JValue)) (k : String)
    (v : JValue) : List (String × JValue) :=
  if cond then dictSet p k v else p

/-- Python truthiness of an optional string: present and non-empty. -/
def optStrT : Option String → Bool
  | none => false
  | some s => s ≠ ""

/-- Python truthiness of an optional integer: present and non-zero. -/
def optIntT : Option Int → Bool
  | none => false
  | some i => i ≠ 0

/-- Python truthiness of an optional list: present and non-empty. -/
def optListT {α : Type} : Option (List α) → Bool
  | none => false
  | some l => !l.isEmpty

/-- Python truthiness of an integer: non-zero. -/
def intT (i : Int) : Bool := i ≠ 0

/-- Python `a or b` on an optional integer and an integer default: the first
truthy operand (`None` and `0` both fall through to the default). -/
def pyOrInt (o : Option Int) (dflt : Int) : Int :=
  match o with
  | none => dflt
  | some i => if i ≠ 0 then i else dflt

/-- Python slice `l[:m]` for an arbitrary integer bound `m`: a non-negative
`m` keeps the first `m` elements, a negative `m` drops the last `-m`. -/
def pySlice {α : Type} (l : List α) (m : Int) : List α :=
  if 0 ≤ m then l.take m.toNat
  else l.take (l.length - min (-m).toNat l.length)

/-- Python list indexing `l[i]`, including negative indices; `none` is an
`IndexError`. -/
def pyIndex {α : Type} (l : List α) (i : Int) : Option α :=
  if 0 ≤ i then l.get? i.toNat
  else if (-i).toNat ≤ l.length then l.get? (l.length - (-i).toNat)
  else none

/-- Python `round(x, 2)` on the rational model of floats (no claim exercises a
half-way tie, where Python rounds to even). -/
def round2 (q : ℚ) : ℚ := ((round (q * 100) : ℤ) : ℚ) / 100

/-- Python `s.lower()` (character-wise lowercasing; agrees with Python on the
ASCII arguments the server handles). -/
def strLower (s : String) : String := ⟨s.data.map Char.toLower⟩

/-- Python `s.upper()` (character-wise, as for `strLower`). -/
def strUpper (s : String) : String := ⟨s.data.map Char.toUpper⟩

/-- An outbound HTTP request: url, query parameters, and the `timeout=`
argument given to `requests.get` (in seconds), if any. -/
structure HttpRequest where
  url : String
  params : List (String × JValue)
  timeout : Option Nat

/-- Outcome of an HTTP call: a decoded JSON object body, or a raised
`requests.exceptions.RequestException` with its message. -/
inductive HttpOutcome where
  | ok (body : List (String × JValue))
  | exn (msg : String)

/-- Outcome of an Amadeus SDK call: a structured body, a provider-reported
`ResponseError`, an `AttributeError` (endpoint missing from the SDK), or any
other exception. -/
inductive AmadeusOutcome where
  | ok (body : List (String × JValue))
  | responseError (msg : String)
  | attrError (msg : String)
  | exn (msg : String)

-- =====================================================================
-- search_flights_amadeus
-- =====================================================================

/-- Arguments of `search_flights_amadeus` (defaults as in the source). -/
structure AmadeusFlightArgs where
  originLocationCode : String
  destinationLocationCode : String
  departureDate : String
  adults : Int
  returnDate : Option String := none
  children : Option Int := none
  infants : Option Int := none
  travelClass : Option String := none
  includedAirlineCodes : Option String := none
  excludedAirlineCodes : Option String := none
  nonStop : Option Bool := none
  currencyCode : Option String := none
  maxPrice : Option Int := none
  max : Option Int := some 250

/-- The three pre-flight validation guards of `search_flights_amadeus`, in
source order; `some msg` is the early-returned error message. Python
truthiness makes every guard skip when `adults` (or the respective optional
count) is `0`/`None`. -/
def amadeusFlightValidate (a : AmadeusFlightArgs) : Option String :=
  if intT a.adults && !(decide (1 ≤ a.adults) && decide (a.adults ≤ 9)) then
    some "Adults must be between 1 and 9"
  else if optIntT a.children && optIntT a.infants && intT a.adults &&
      decide (a.adults + (a.children.getD 0) > 9) then
    some "Total number of seated travelers (adults + children) cannot exceed 9"
  else if optIntT a.infants && intT a.adults &&
      decide ((a.infants.getD 0) > a.adults) then
    some "Number of infants cannot exceed number of adults"
  else
    none

/-- The provider-parameter mapping of `search_flights_amadeus`: four
unconditional keys, then each optional key under the source's guard. -/
def amadeusFlightParams (a : AmadeusFlightArgs) : List (String × JValue) :=
  let p : List (String × JValue) := []
  let p := dictSet p "originLocationCode" (.str a.originLocationCode)
  let p := dictSet p "destinationLocationCode" (.str a.destinationLocationCode)
  let p := dictSet p "departureDate" (.str a.departureDate)
  let p := dictSet p "adults" (.int a.adults)
  let p := dictSetIf (optStrT a.returnDate) p "returnDate" (.str (a.returnDate.getD ""))
  let p := dictSetIf a.children.isSome p "children" (.int (a.children.getD 0))
  let p := dictSetIf a.infants.isSome p "infants" (.int (a.infants.getD 0))
  let p := dictSetIf (optStrT a.travelClass) p "travelClass" (.str (a.travelClass.getD ""))
  let p := dictSetIf (optStrT a.includedAirlineCodes) p "includedAirlineCodes" (.str (a.includedAirlineCodes.getD ""))
  let p := dictSetIf (optStrT a.excludedAirlineCodes) p "excludedAirlineCodes" (.str (a.excludedAirlineCodes.getD ""))
  let p := dictSetIf a.nonStop.isSome p "nonStop" (.bool (a.nonStop.getD false))
  let p := dictSetIf (optStrT a.currencyCode) p "currencyCode" (.str (a.currencyCode.getD ""))
  let p := dictSetIf a.maxPrice.isSome p "maxPrice" (.int (a.maxPrice.getD 0))
  let p := dictSetIf a.max.isSome p "max" (.int (a.max.getD 0))
  p

/-- `search_flights_amadeus`: validation guards, then the SDK call through the
oracle, then success stamping / error classification. -/
def search_flights_amadeus (a : AmadeusFlightArgs)
    (provider : List (String × JValue) → AmadeusOutcome) (now : String) :
    List (String × JValue) :=
  match amadeusFlightValidate a with
  | some msg => [("error", .str msg)]
  | none =>
    match provider (amadeusFlightParams a) with
    | .ok body =>
        dictSet (dictSet body "provider" (.str "Amadeus GDS")) "search_timestamp" (.str now)
    | .responseError m => [("error", .str ("Amadeus API error: " ++ m))]
    | .attrError m => [("error", .str ("Unexpected error: " ++ m))]
    | .exn m => [("error", .str ("Unexpected error: " ++ m))]

-- =====================================================================
-- search_flights_serpapi
-- =====================================================================

/-- `None` maps to JSON null, a present string to itself. -/
def jOptStr : Option String → JValue
  | none => .null
  | some s => .str s

/-- Python `",".join(map(str, l))` on an integer list. -/
def commaJoin (l : List Int) : String :=
  String.intercalate "," (l.map toString)

/-- `provider_payload.get(k, [])[:m]`: key absent defaults to the empty list;
a present non-list value cannot be sliced (Python `TypeError`), yielding
`none`. -/
def pyGetSlice (body : List (String × JValue)) (k : String) (m : Int) :
    Option (List JValue) :=
  match dlookup body k with
  | none => some []
  | some (.list l) => some (pySlice l m)
  | some _ => none

/-- Arguments of `search_flights_serpapi` (defaults as in the source). -/
structure SerpFlightArgs where
  departure_id : String
  arrival_id : String
  outbound_date : String
  return_date : Option String := none
  trip_type : Int := 1
  adults : Int := 1
  children : Int := 0
  infants_in_seat : Int := 0
  infants_on_lap : Int := 0
  travel_class : Int := 1
  currency : String := "USD"
  country : String := "us"
  language : String := "en"
  max_results : Int := 10

/-- The provider-parameter mapping of `search_flights_serpapi`; `return_date`
is included only when truthy and the trip type is the round-trip code 1. -/
def serpFlightsParams (a : SerpFlightArgs) (api_key : String) :
    List (String × JValue) :=
  let p : List (String × JValue) := []
  let p := dictSet p "engine" (.str "google_flights")
  let p := dictSet p "departure_id" (.str a.departure_id)
  let p := dictSet p "arrival_id" (.str a.arrival_id)
  let p := dictSet p "outbound_date" (.str a.outbound_date)
  let p := dictSet p "type" (.int a.trip_type)
  let p := dictSet p "adults" (.int a.adults)
  let p := dictSet p "children" (.int a.children)
  let p := dictSet p "infants_in_seat" (.int a.infants_in_seat)
  let p := dictSet p "infants_on_lap" (.int a.infants_on_lap)
  let p := dictSet p "travel_class" (.int a.travel_class)
  let p := dictSet p "currency" (.str a.currency)
  let p := dictSet p "hl" (.str a.language)
  let p := dictSet p "gl" (.str a.country)
  let p := dictSet p "api_key" (.str api_key)
  let p := dictSetIf (optStrT a.return_date && decide (a.trip_type = 1)) p
    "return_date" (.str (a.return_date.getD ""))
  p

/-- The outbound request of `search_flights_serpapi`: `requests.get` with no
`timeout=` argument. -/
def serpFlightsRequest (a : SerpFlightArgs) (api_key : String) : HttpRequest :=
  { url := "https://serpapi.com/search",
    params := serpFlightsParams a api_key,
    timeout := none }

/-- The trip-type label of the flight metadata: any value other than 1 or 2
falls into the final `else` branch. -/
def tripTypeLabel (t : Int) : String :=
  if t = 1 then "Round trip" else if t = 2 then "One way" else "Multi-city"

/-- The fixed travel-class lookup table indexed by `travel_class - 1`. -/
def travelClassNames : List String :=
  ["Economy", "Premium economy", "Business", "First"]

/-- Success-path normalizer of `search_flights_serpapi`. The travel-class
table lookup happens while the metadata block is built, before the result
lists are sliced; an out-of-table index raises `IndexError`, caught by the
broad handler as an unexpected error. -/
def serpFlightsNormalize (a : SerpFlightArgs) (body : List (String × JValue))
    (now : String) : List (String × JValue) :=
  match pyIndex travelClassNames (a.travel_class - 1) with
  | none => [("error", .str "Unexpected error: list index out of range")]
  | some cls =>
    match pyGetSlice body "best_flights" a.max_results,
          pyGetSlice body "other_flights" a.max_results with
    | some bf, some ofl =>
        [("provider", .str "Google Flights (SerpAPI)"),
         ("search_metadata", .obj
            [("departure", .str a.departure_id),
             ("arrival", .str a.arrival_id),
             ("outbound_date", .str a.outbound_date),
             ("return_date", jOptStr a.return_date),
             ("trip_type", .str (tripTypeLabel a.trip_type)),
             ("passengers", .obj
                [("adults", .int a.adults),
                 ("children", .int a.children),
                 ("infants_in_seat", .int a.infants_in_seat),
                 ("infants_on_lap", .int a.infants_on_lap)]),
             ("travel_class", .str cls),
             ("currency", .str a.currency),
             ("search_timestamp", .str now)]),
         ("best_flights", .list bf),
         ("other_flights", .list ofl),
         ("price_insights", dgetD body "price_insights" (.obj [])),
         ("airports", dgetD body "airports" (.list []))]
    | _, _ => [("error", .str "Unexpected error: slicing a non-list payload field")]

/-- `search_flights_serpapi` (the SerpAPI credential is assumed configured and
passed as `api_key`). -/
def search_flights_serpapi (a : SerpFlightArgs) (api_key : String)
    (http : HttpRequest → HttpOutcome) (now : String) : List (String × JValue) :=
  match http (serpFlightsRequest a api_key) with
  | .exn m => [("error", .str ("Google Flights API request failed: " ++ m))]
  | .ok body => serpFlightsNormalize a body now

-- =====================================================================
-- search_hotels_serpapi
-- =====================================================================

/-- Arguments of `search_hotels_serpapi` (defaults as in the source). -/
structure SerpHotelArgs where
  location : String
  check_in_date : String
  check_out_date : String
  adults : Int := 2
  children : Int := 0
  children_ages : Option (List Int) := none
  currency : String := "USD"
  country : String := "us"
  language : String := "en"
  sort_by : Option Int := none
  hotel_class : Option (List Int) := none
  amenities : Option (List Int) := none
  property_types : Option (List Int) := none
  brands : Option (List Int) := none
  free_cancellation : Bool := false
  special_offers : Bool := false
  vacation_rentals : Bool := false
  bedrooms : Option Int := none
  max_results : Int := 20

/-- The provider-parameter mapping of `search_hotels_serpapi`: the fixed base
keys, then every optional key under its Python-truthiness guard (list-valued
filters are comma-joined; boolean flags are emitted as the string "true"). -/
def serpHotelsParams (a : SerpHotelArgs) (api_key : String) :
    List (String × JValue) :=
  let p : List (String × JValue) := []
  let p := dictSet p "engine" (.str "google_hotels")
  let p := dictSet p "q" (.str a.location)
  let p := dictSet p "check_in_date" (.str a.check_in_date)
  let p := dictSet p "check_out_date" (.str a.check_out_date)
  let p := dictSet p "adults" (.int a.adults)
  let p := dictSet p "children" (.int a.children)
  let p := dictSet p "currency" (.str a.currency)
  let p := dictSet p "gl" (.str a.country)
  let p := dictSet p "hl" (.str a.language)
  let p := dictSet p "api_key" (.str api_key)
  let p := dictSetIf (optListT a.children_ages) p "children_ages" (.str (commaJoin (a.children_ages.getD [])))
  let p := dictSetIf (optIntT a.sort_by) p "sort_by" (.int (a.sort_by.getD 0))
  let p := dictSetIf (optListT a.hotel_class) p "hotel_class" (.str (commaJoin (a.hotel_class.getD [])))
  let p := dictSetIf (optListT a.amenities) p "amenities" (.str (commaJoin (a.amenities.getD [])))
  let p := dictSetIf (optListT a.property_types) p "property_types" (.str (commaJoin (a.property_types.getD [])))
  let p := dictSetIf (optListT a.brands) p "brands" (.str (commaJoin (a.brands.getD [])))
  let p := dictSetIf a.free_cancellation p "free_cancellation" (.str "true")
  let p := dictSetIf a.special_offers p "special_offers" (.str "true")
  let p := dictSetIf a.vacation_rentals p "vacation_rentals" (.str "true")
  let p := dictSetIf (optIntT a.bedrooms) p "bedrooms" (.int (a.bedrooms.getD 0))
  p

/-- The outbound request of `search_hotels_serpapi`: no `timeout=`. -/
def serpHotelsRequest (a : SerpHotelArgs) (api_key : String) : HttpRequest :=
  { url := "https://serpapi.com/search",
    params := serpHotelsParams a api_key,
    timeout := none }

/-- Success-path normalizer of `search_hotels_serpapi`. -/
def serpHotelsNormalize (a : SerpHotelArgs) (body : List (String × JValue))
    (now : String) : List (String × JValue) :=
  match pyGetSlice body "properties" a.max_results with
  | some props =>
      [("provider", .str "Google Hotels (SerpAPI)"),
       ("search_metadata", .obj
          [("location", .str a.location),
           ("check_in_date", .str a.check_in_date),
           ("check_out_date", .str a.check_out_date),
           ("guests", .obj
              [("adults", .int a.adults),
               ("children", .int a.children),
               ("children_ages", .list ((a.children_ages.getD []).map JValue.int))]),
           ("currency", .str a.currency),
           ("search_timestamp", .str now)]),
       ("properties", .list props),
       ("filters", dgetD body "filters" (.obj [])),
       ("search_parameters", dgetD body "search_parameters" (.obj [])),
       ("location_info", dgetD body "place_results" (.obj []))]
  | none => [("error", .str "Unexpected error: slicing a non-list payload field")]

/-- `search_hotels_serpapi`. -/
def search_hotels_serpapi (a : SerpHotelArgs) (api_key : String)
    (http : HttpRequest → HttpOutcome) (now : String) : List (String × JValue) :=
  match http (serpHotelsRequest a api_key) with
  | .exn m => [("error", .str ("Google Hotels API request failed: " ++ m))]
  | .ok body => serpHotelsNormalize a body now

-- =====================================================================
-- search_hotels_amadeus_by_city / search_hotels_amadeus_geocode
-- =====================================================================

/-- Arguments of `search_hotels_amadeus_by_city`. -/
structure AmadeusCityHotelArgs where
  cityCode : String
  radius : Option Int := none
  radiusUnit : Option String := none
  chainCodes : Option String := none
  amenities : Option String := none
  ratings : Option String := none
  hotelSource : Option String := none

/-- Provider parameters of `search_hotels_amadeus_by_city`: `radius` under an
`is not None` guard, the remaining optional strings under truthiness. -/
def amadeusCityHotelParams (a : AmadeusCityHotelArgs) : List (String × JValue) :=
  let p : List (String × JValue) := [("cityCode", .str a.cityCode)]
  let p := dictSetIf a.radius.isSome p "radius" (.int (a.radius.getD 0))
  let p := dictSetIf (optStrT a.radiusUnit) p "radiusUnit" (.str (a.radiusUnit.getD ""))
  let p := dictSetIf (optStrT a.chainCodes) p "chainCodes" (.str (a.chainCodes.getD ""))
  let p := dictSetIf (optStrT a.amenities) p "amenities" (.str (a.amenities.getD ""))
  let p := dictSetIf (optStrT a.ratings) p "ratings" (.str (a.ratings.getD ""))
  let p := dictSetIf (optStrT a.hotelSource) p "hotelSource" (.str (a.hotelSource.getD ""))
  p

/-- Arguments of `search_hotels_amadeus_geocode`. -/
structure AmadeusGeoHotelArgs where
  latitude : ℚ
  longitude : ℚ
  radius : Option Int := none
  radiusUnit : Option String := none
  chainCodes : Option String := none
  amenities : Option String := none
  ratings : Option String := none
  hotelSource : Option String := none

/-- Provider parameters of `search_hotels_amadeus_geocode`. -/
def amadeusGeoHotelParams (a : AmadeusGeoHotelArgs) : List (String × JValue) :=
  let p : List (String × JValue) :=
    [("latitude", .num a.latitude), ("longitude", .num a.longitude)]
  let p := dictSetIf a.radius.isSome p "radius" (.int (a.radius.getD 0))
  let p := dictSetIf (optStrT a.radiusUnit) p "radiusUnit" (.str (a.radiusUnit.getD ""))
  let p := dictSetIf (optStrT a.chainCodes) p "chainCodes" (.str (a.chainCodes.getD ""))
  let p := dictSetIf (optStrT a.amenities) p "amenities" (.str (a.amenities.getD ""))
  let p := dictSetIf (optStrT a.ratings) p "ratings" (.str (a.ratings.getD ""))
  let p := dictSetIf (optStrT a.hotelSource) p "hotelSource" (.str (a.hotelSource.getD ""))
  p

-- =====================================================================
-- search_hotel_offers_amadeus
-- =====================================================================

/-- Arguments of `search_hotel_offers_amadeus` (defaults as in the source). -/
structure HotelOffersArgs where
  cityCode : Option String := none
  hotelIds : Option String := none
  checkInDate : Option String := none
  checkOutDate : Option String := none
  adults : Int := 1
  roomQuantity : Option Int := none
  priceRange : Option String := none
  currency : Option String := none
  paymentPolicy : Option String := none
  boardType : Option String := none
  includeClosed : Option Bool := none
  bestRateOnly : Option Bool := none
  view : Option String := none
  sort : Option String := none
  lang : Option String := none

/-- Provider parameters of `search_hotel_offers_amadeus`: `adults` always,
every optional key under its source guard. -/
def hotelOffersParams (a : HotelOffersArgs) : List (String × JValue) :=
  let p : List (String × JValue) := [("adults", .int a.adults)]
  let p := dictSetIf (optStrT a.cityCode) p "cityCode" (.str (a.cityCode.getD ""))
  let p := dictSetIf (optStrT a.hotelIds) p "hotelIds" (.str (a.hotelIds.getD ""))
  let p := dictSetIf (optStrT a.checkInDate) p "checkInDate" (.str (a.checkInDate.getD ""))
  let p := dictSetIf (optStrT a.checkOutDate) p "checkOutDate" (.str (a.checkOutDate.getD ""))
  let p := dictSetIf a.roomQuantity.isSome p "roomQuantity" (.int (a.roomQuantity.getD 0))
  let p := dictSetIf (optStrT a.priceRange) p "priceRange" (.str (a.priceRange.getD ""))
  let p := dictSetIf (optStrT a.currency) p "currency" (.str (a.currency.getD ""))
  let p := dictSetIf (optStrT a.paymentPolicy) p "paymentPolicy" (.str (a.paymentPolicy.getD ""))
  let p := dictSetIf (optStrT a.boardType) p "boardType" (.str (a.boardType.getD ""))
  let p := dictSetIf a.includeClosed.isSome p "includeClosed" (.bool (a.includeClosed.getD false))
  let p := dictSetIf a.bestRateOnly.isSome p "bestRateOnly" (.bool (a.bestRateOnly.getD false))
  let p := dictSetIf (optStrT a.view) p "view" (.str (a.view.getD ""))
  let p := dictSetIf (optStrT a.sort) p "sort" (.str (a.sort.getD ""))
  let p := dictSetIf (optStrT a.lang) p "lang" (.str (a.lang.getD ""))
  p

/-- `search_hotel_offers_amadeus`: the cross-field validation guard (neither
`cityCode` nor `hotelIds` truthy) returns before the provider oracle is ever
consulted; otherwise the SDK call result is stamped or classified. -/
def search_hotel_offers_amadeus (a : HotelOffersArgs)
    (provider : List (String × JValue) → AmadeusOutcome) (now : String) :
    List (String × JValue) :=
  if !optStrT a.cityCode && !optStrT a.hotelIds then
    [("error", .str "Either cityCode or hotelIds must be provided")]
  else
    match provider (hotelOffersParams a) with
    | .ok body =>
        dictSet (dictSet body "provider" (.str "Amadeus GDS")) "search_timestamp" (.str now)
    | .responseError m => [("error", .str ("Amadeus API error: " ++ m))]
    | .attrError m => [("error", .str ("Unexpected error: " ++ m))]
    | .exn m => [("error", .str ("Unexpected error: " ++ m))]

-- =====================================================================
-- search_activities_amadeus
-- =====================================================================

/-- Arguments of `search_activities_amadeus`. -/
structure ActivitiesArgs where
  latitude : ℚ
  longitude : ℚ
  radius : Option Int := none
  radiusUnit : String := "KM"

/-- Provider parameters of `search_activities_amadeus`: the source writes
`"radius": radius or 1`, so an unset (or zero) radius is emitted as the
default 1 rather than omitted. -/
def activitiesParams (a : ActivitiesArgs) : List (String × JValue) :=
  [("latitude", .num a.latitude),
   ("longitude", .num a.longitude),
   ("radius", .int (pyOrInt a.radius 1)),
   ("radiusUnit", .str a.radiusUnit)]

/-- `search_activities_amadeus`, including the `AttributeError` capability
branch that adds a `note` key. -/
def search_activities_amadeus (a : ActivitiesArgs)
    (provider : List (String × JValue) → AmadeusOutcome) (now : String) :
    List (String × JValue) :=
  match provider (activitiesParams a) with
  | .ok body =>
      dictSet (dictSet body "provider" (.str "Amadeus GDS")) "search_timestamp" (.str now)
  | .responseError m => [("error", .str ("Amadeus API error: " ++ m))]
  | .attrError m =>
      [("error", .str ("Tours and Activities API not available in current SDK version: " ++ m)),
       ("note", .str "This API might require a newer SDK version or special access")]
  | .exn m => [("error", .str ("Unexpected error: " ++ m))]

-- =====================================================================
-- search_events_serpapi
-- =====================================================================

/-- Arguments of `search_events_serpapi` (defaults as in the source). -/
structure SerpEventArgs where
  query : String
  location : Option String := none
  date_filter : Option String := none
  event_type : Option String := none
  language : String := "en"
  country : String := "us"
  max_results : Int := 20

/-- Provider parameters of `search_events_serpapi`: both optional filters are
assigned to the single `htichips` key, so a truthy `event_type` overwrites a
previously stored date filter. -/
def serpEventsParams (a : SerpEventArgs) (api_key : String) :
    List (String × JValue) :=
  let search_query :=
    a.query ++ (if optStrT a.location then " in " ++ a.location.getD "" else "")
  let p : List (String × JValue) := []
  let p := dictSet p "engine" (.str "google_events")
  let p := dictSet p "q" (.str search_query)
  let p := dictSet p "hl" (.str a.language)
  let p := dictSet p "gl" (.str a.country)
  let p := dictSet p "api_key" (.str api_key)
  let p := dictSetIf (optStrT a.date_filter) p "htichips" (.str ("date:" ++ a.date_filter.getD ""))
  let p := dictSetIf (optStrT a.event_type) p "htichips" (.str ("event_type:" ++ a.event_type.getD ""))
  p

/-- The outbound request of `search_events_serpapi`: no `timeout=`. -/
def serpEventsRequest (a : SerpEventArgs) (api_key : String) : HttpRequest :=
  { url := "https://serpapi.com/search",
    params := serpEventsParams a api_key,
    timeout := none }

/-- `search_events_serpapi`. -/
def search_events_serpapi (a : SerpEventArgs) (api_key : String)
    (http : HttpRequest → HttpOutcome) (now : String) : List (String × JValue) :=
  match http (serpEventsRequest a api_key) with
  | .exn m => [("error", .str ("Google Events API request failed: " ++ m))]
  | .ok body =>
    match pyGetSlice body "events_results" a.max_results with
    | some evs =>
        [("provider", .str "Google Events (SerpAPI)"),
         ("search_metadata", .obj
            [("query", .str a.query),
             ("location", jOptStr a.location),
             ("date_filter", jOptStr a.date_filter),
             ("event_type", jOptStr a.event_type),
             ("language", .str a.language),
             ("country", .str a.country),
             ("search_timestamp", .str now)]),
         ("events", .list evs),
         ("search_parameters", dgetD body "search_parameters" (.obj []))]
    | none => [("error", .str "Unexpected error: slicing a non-list payload field")]

-- =====================================================================
-- lookup_stock
-- =====================================================================

/-- Arguments of `lookup_stock` (defaults as in the source). -/
structure StockArgs where
  symbol : String
  exchange : Option String := none
  window : Option String := none
  language : String := "en"

/-- The Google Finance query string: `SYMBOL` or `SYMBOL:EXCHANGE`. -/
def stockQuery (a : StockArgs) : String :=
  if optStrT a.exchange then (strUpper a.symbol) ++ ":" ++ (strUpper (a.exchange.getD ""))
  else (strUpper a.symbol)

/-- Provider parameters of `lookup_stock`. -/
def stockParams (a : StockArgs) (api_key : String) : List (String × JValue) :=
  let p : List (String × JValue) := []
  let p := dictSet p "engine" (.str "google_finance")
  let p := dictSet p "q" (.str (stockQuery a))
  let p := dictSet p "hl" (.str a.language)
  let p := dictSet p "api_key" (.str api_key)
  let p := dictSetIf (optStrT a.window) p "window" (.str (a.window.getD ""))
  p

/-- The outbound request of `lookup_stock`: no `timeout=`. -/
def stockRequest (a : StockArgs) (api_key : String) : HttpRequest :=
  { url := "https://serpapi.com/search",
    params := stockParams a api_key,
    timeout := none }

/-- `lookup_stock`: note that the success envelope carries no top-level
`provider` key; the timestamp lives inside `search_metadata`. -/
def lookup_stock (a : StockArgs) (api_key : String)
    (http : HttpRequest → HttpOutcome) (now : String) : List (String × JValue) :=
  match http (stockRequest a api_key) with
  | .exn m => [("error", .str ("API request failed: " ++ m))]
  | .ok body =>
      [("search_metadata", .obj
          [("symbol", .str (strUpper a.symbol)),
           ("exchange", jOptStr a.exchange),
           ("window", jOptStr a.window),
           ("language", .str a.language),
           ("search_timestamp", .str now)]),
       ("stock_info", dgetD body "summary" (.obj [])),
       ("price_movement", dgetD body "price_movement" (.obj [])),
       ("historical_data", dgetD body "historical_data" (.list [])),
       ("news", dgetD body "news" (.list []))]

-- =====================================================================
-- geocode_location
-- =====================================================================

/-- Arguments of `geocode_location` (defaults as in the source). -/
structure GeocodeArgs where
  location : String
  exactly_one : Bool := true
  timeout : Int := 10
  language : String := "en"
  addressdetails : Bool := true
  country_codes : Option String := none

/-- One geopy match: coordinates, formatted address, raw payload. -/
structure GeoResult where
  latitude : ℚ
  longitude : ℚ
  address : String
  raw : JValue

/-- Reply of the rate-limited geopy geocoder: a list of matches (a single
match is the one-element list when `exactly_one` is set), `None`, or a raised
geocoder/other exception. -/
inductive GeoReply where
  | results (rs : List GeoResult)
  | noResult
  | geoException (msg : String)
  | otherException (msg : String)

/-- The keyword arguments passed to the geopy geocoder, including the
caller-supplied `timeout` (default 10). -/
def geocodeParams (a : GeocodeArgs) : List (String × JValue) :=
  let p : List (String × JValue) :=
    [("exactly_one", .bool a.exactly_one),
     ("timeout", .int a.timeout),
     ("language", .str a.language),
     ("addressdetails", .bool a.addressdetails)]
  let p := dictSetIf (optStrT a.country_codes) p "country_codes"
      (.list (((a.country_codes.getD "").splitOn ",").map JValue.str))
  p

/-- `geocode_location`. A falsy geocoder reply (None or an empty match list)
yields the not-found envelope, which carries an `error` key and an extra
`suggestions` key. -/
def geocode_location (a : GeocodeArgs)
    (geocoder : String → List (String × JValue) → GeoReply) (now : String) :
    List (String × JValue) :=
  match geocoder a.location (geocodeParams a) with
  | .geoException m => [("error", .str ("Geocoding service error: " ++ m))]
  | .otherException m => [("error", .str ("Unexpected error: " ++ m))]
  | .noResult =>
      [("error", .str ("Location \x27" ++ a.location ++ "\x27 not found")),
       ("suggestions", .str "Try using a more specific address or well-known landmark name")]
  | .results [] =>
      [("error", .str ("Location \x27" ++ a.location ++ "\x27 not found")),
       ("suggestions", .str "Try using a more specific address or well-known landmark name")]
  | .results (r :: rest) =>
      if a.exactly_one then
        [("location", .str a.location),
         ("coordinates", .obj
            [("latitude", .num r.latitude), ("longitude", .num r.longitude)]),
         ("address", .str r.address),
         ("raw_data", r.raw),
         ("search_timestamp", .str now)]
      else
        [("location", .str a.location),
         ("multiple_results", .list ((r :: rest).map fun s =>
            .obj [("coordinates", .obj
                     [("latitude", .num s.latitude), ("longitude", .num s.longitude)]),
                  ("address", .str s.address),
                  ("raw_data", s.raw)])),
         ("search_timestamp", .str now)]

-- =====================================================================
-- calculate_distance
-- =====================================================================

/-- The geopy geodesic distance object: the same distance in each unit. -/
structure GeoDist where
  kilometers : ℚ
  miles : ℚ
  nautical : ℚ

/-- `calculate_distance`, over an abstract geodesic library primitive. A unit
whose lowercase form is neither "miles" nor "nm" falls into the final `else`
and reports kilometers, while the envelope echoes the lowercased unit. -/
def calculate_distance (geodesic : ℚ → ℚ → ℚ → ℚ → GeoDist)
    (lat1 lon1 lat2 lon2 : ℚ) (unit : String) (now : String) :
    List (String × JValue) :=
  let d := geodesic lat1 lon1 lat2 lon2
  let dv :=
    if (strLower unit) = "miles" then d.miles
    else if (strLower unit) = "nm" then d.nautical
    else d.kilometers
  [("point1", .obj [("latitude", .num lat1), ("longitude", .num lon1)]),
   ("point2", .obj [("latitude", .num lat2), ("longitude", .num lon2)]),
   ("distance", .obj [("value", .num (round2 dv)), ("unit", .str (strLower unit))]),
   ("all_units", .obj
      [("kilometers", .num (round2 d.kilometers)),
       ("miles", .num (round2 d.miles)),
       ("nautical_miles", .num (round2 d.nautical))]),
   ("calculation_timestamp", .str now)]

-- =====================================================================
-- weather and currency outbound requests
-- =====================================================================

def OPEN_METEO_BASE_URL : String := "https://api.open-meteo.com/v1/forecast"

/-- The outbound request of `get_current_conditions`: fixed 10 s timeout. -/
def currentConditionsRequest (latitude longitude : ℚ) : HttpRequest :=
  { url := OPEN_METEO_BASE_URL,
    params := [("latitude", .num latitude), ("longitude", .num longitude),
               ("current_weather", .str "true"), ("timezone", .str "auto")],
    timeout := some 10 }

/-- The comma-joined hourly field list of `get_weather_forecast`. -/
def hourlyFields : String :=
  String.intercalate ","
    ["temperature_2m", "relative_humidity_2m", "apparent_temperature",
     "precipitation_probability", "windspeed_10m", "winddirection_10m",
     "weathercode"]

/-- The comma-joined daily field list of `get_weather_forecast`. -/
def dailyFields : String :=
  String.intercalate ","
    ["temperature_2m_max", "temperature_2m_min", "precipitation_sum",
     "sunrise", "sunset", "uv_index_max"]

/-- The outbound request of `get_weather_forecast`: fixed 10 s timeout. -/
def forecastRequest (latitude longitude : ℚ) (hourly : Bool) : HttpRequest :=
  { url := OPEN_METEO_BASE_URL,
    params :=
      (let p : List (String × JValue) :=
        [("latitude", .num latitude), ("longitude", .num longitude),
         ("timezone", .str "auto")]
       if hourly then dictSet p "hourly" (.str hourlyFields)
       else dictSet p "daily" (.str dailyFields)),
    timeout := some 10 }

/-- The outbound request of `convert_currency`: fixed 10 s timeout; currency
codes are upper-cased into the url path. -/
def currencyRequest (from_currency to_currency api_key : String) : HttpRequest :=
  { url := "https://v6.exchangerate-api.com/v6/" ++ api_key ++ "/pair/"
            ++ (strUpper from_currency) ++ "/" ++ (strUpper to_currency),
    params := [],
    timeout := some 10 }

/-- The metadata sub-field of an envelope: `env["search_metadata"][k]`. -/
def mdField (env : List (String × JValue)) (k : String) : Option JValue :=
  match dlookup env "search_metadata" with
  | some (.obj md) => dlookup md k
  | _ => none

/-- The list stored at `env[k]`, defaulting to `[]`. -/
def envListField (env : List (String × JValue)) (k : String) : List JValue :=
  match dlookup env k with
  | some (.list l) => l
  | _ => []

/-- Python truthiness of a JSON value. -/
def jTruthy : JValue → Bool
  | .null => false
  | .bool b => b
  | .int n => n ≠ 0
  | .num q => q ≠ 0
  | .str s => s ≠ ""
  | .list l => !l.isEmpty
  | .obj o => !o.isEmpty

/-- `payload.get(k, dict())` read as a mapping: key absent defaults to the
empty mapping; a present non-mapping value would make the subsequent `.get`
raise in Python (an unexercised branch, `none` here). -/
def jGetObjD (d : List (String × JValue)) (k : String) :
    Option (List (String × JValue)) :=
  match dlookup d k with
  | none => some []
  | some (.obj o) => some o
  | some _ => none

/-- `payload.get(k, [])` read as a sequence: key absent defaults to the empty
list; a present non-list value would make iteration raise in Python (an
unexercised branch, `none` here). -/
def jGetListD (d : List (String × JValue)) (k : String) :
    Option (List JValue) :=
  match dlookup d k with
  | none => some []
  | some (.list l) => some l
  | some _ => none

-- =====================================================================
-- search_hotels_amadeus_by_city / search_hotels_amadeus_geocode (calls),
-- get_activity_details_amadeus
-- =====================================================================

/-- `search_hotels_amadeus_by_city`: the SDK call, success stamping and error
classification around `amadeusCityHotelParams`. -/
def search_hotels_amadeus_by_city (a : AmadeusCityHotelArgs)
    (provider : List (String × JValue) → AmadeusOutcome) (now : String) :
    List (String × JValue) :=
  match provider (amadeusCityHotelParams a) with
  | .ok body =>
      dictSet (dictSet body "provider" (.str "Amadeus GDS")) "search_timestamp" (.str now)
  | .responseError m => [("error", .str ("Amadeus API error: " ++ m))]
  | .attrError m => [("error", .str ("Unexpected error: " ++ m))]
  | .exn m => [("error", .str ("Unexpected error: " ++ m))]

/-- `search_hotels_amadeus_geocode`: as for the by-city variant. -/
def search_hotels_amadeus_geocode (a : AmadeusGeoHotelArgs)
    (provider : List (String × JValue) → AmadeusOutcome) (now : String) :
    List (String × JValue) :=
  match provider (amadeusGeoHotelParams a) with
  | .ok body =>
      dictSet (dictSet body "provider" (.str "Amadeus GDS")) "search_timestamp" (.str now)
  | .responseError m => [("error", .str ("Amadeus API error: " ++ m))]
  | .attrError m => [("error", .str ("Unexpected error: " ++ m))]
  | .exn m => [("error", .str ("Unexpected error: " ++ m))]

/-- `get_activity_details_amadeus`: lookup by identifier, with the same
capability branch (`note` key) as the activities search. -/
def get_activity_details_amadeus (activityId : String)
    (provider : String → AmadeusOutcome) (now : String) :
    List (String × JValue) :=
  match provider activityId with
  | .ok body =>
      dictSet (dictSet body "provider" (.str "Amadeus GDS")) "search_timestamp" (.str now)
  | .responseError m => [("error", .str ("Amadeus API error: " ++ m))]
  | .attrError m =>
      [("error", .str ("Tours and Activities API not available in current SDK version: " ++ m)),
       ("note", .str "This API might require a newer SDK version or special access")]
  | .exn m => [("error", .str ("Unexpected error: " ++ m))]

-- =====================================================================
-- get_current_conditions / get_weather_forecast
-- =====================================================================

/-- `get_current_conditions`: `current_weather` falling back to `current` by
Python truthiness, the not-available guard, then the normalized envelope with
a top-level `provider` and timestamp. A truthy non-mapping `current` would
raise in Python with an interpreter-worded message; that unexercised branch
is collapsed to a fixed message. -/
def get_current_conditions (latitude longitude : ℚ)
    (http : HttpRequest → HttpOutcome) (now : String) : List (String × JValue) :=
  match http (currentConditionsRequest latitude longitude) with
  | .exn m => [("error", .str ("Weather API request failed: " ++ m))]
  | .ok data =>
    let cw := dgetD data "current_weather" .null
    let current := if jTruthy cw then cw else dgetD data "current" .null
    if jTruthy current then
      match current with
      | .obj c =>
          [("coordinates", .obj [("latitude", .num latitude), ("longitude", .num longitude)]),
           ("provider", .str "open-meteo"),
           ("current_conditions", .obj
              [("timestamp", dgetD c "time" .null),
               ("temperature_c", dgetD c "temperature" .null),
               ("windspeed_kph", dgetD c "windspeed" .null),
               ("winddirection_deg", dgetD c "winddirection" .null),
               ("is_day", dgetD c "is_day" .null),
               ("weathercode", dgetD c "weathercode" .null)]),
           ("search_timestamp", .str now)]
      | _ => [("error", .str "Error processing weather data: malformed provider payload")]
    else
      [("error", .str "Current weather not available")]

/-- One forecast field of a period:
`(hd.get(k) or [None])[idx] if idx < len(hd.get(k, [])) else None`. An absent
key has length 0, so the guard fails and the field is null; a present
non-list value would make `len` raise (unexercised, `none` here). -/
def forecastField (hd : List (String × JValue)) (k : String) (idx : Nat) :
    Option JValue :=
  match dlookup hd k with
  | none => some .null
  | some (.list l) => some (if idx < l.length then (l.get? idx).getD .null else .null)
  | some _ => none

/-- One hourly forecast period of `get_weather_forecast`. -/
def hourlyPeriod (hd : List (String × JValue)) (idx : Nat) (t : JValue) :
    Option JValue := do
  let temp ← forecastField hd "temperature_2m" idx
  let rh ← forecastField hd "relative_humidity_2m" idx
  let app ← forecastField hd "apparent_temperature" idx
  let pp ← forecastField hd "precipitation_probability" idx
  let ws ← forecastField hd "windspeed_10m" idx
  let wd ← forecastField hd "winddirection_10m" idx
  let wc ← forecastField hd "weathercode" idx
  pure (.obj
    [("time", t), ("temperature_c", temp), ("relative_humidity", rh),
     ("apparent_temperature_c", app), ("precipitation_probability", pp),
     ("windspeed_10m", ws), ("winddirection_10m", wd), ("weathercode", wc)])

/-- One daily forecast period of `get_weather_forecast`. -/
def dailyPeriod (hd : List (String × JValue)) (idx : Nat) (t : JValue) :
    Option JValue := do
  let tmax ← forecastField hd "temperature_2m_max" idx
  let tmin ← forecastField hd "temperature_2m_min" idx
  let ps ← forecastField hd "precipitation_sum" idx
  let sr ← forecastField hd "sunrise" idx
  let ss ← forecastField hd "sunset" idx
  let uv ← forecastField hd "uv_index_max" idx
  pure (.obj
    [("date", t), ("temp_max_c", tmax), ("temp_min_c", tmin),
     ("precipitation_sum_mm", ps), ("sunrise", sr), ("sunset", ss),
     ("uv_index_max", uv)])

/-- The `for idx, t in enumerate(times)` loop building `result_periods`. -/
def buildPeriods (f : List (String × JValue) → Nat → JValue → Option JValue)
    (hd : List (String × JValue)) (times : List JValue) :
    Option (List JValue) :=
  (times.enum).mapM fun it => f hd it.1 it.2

/-- `get_weather_forecast`: the hourly/daily period extraction and the
normalized envelope with a top-level `provider` and timestamp. Malformed
payload shapes Python reports with interpreter-worded messages are collapsed
to one fixed message (unexercised branches). -/
def get_weather_forecast (latitude longitude : ℚ) (hourly : Bool)
    (http : HttpRequest → HttpOutcome) (now : String) : List (String × JValue) :=
  match http (forecastRequest latitude longitude hourly) with
  | .exn m => [("error", .str ("Weather API request failed: " ++ m))]
  | .ok data =>
    match jGetObjD data (if hourly then "hourly" else "daily") with
    | none => [("error", .str "Error processing forecast data: malformed provider payload")]
    | some hd =>
      match jGetListD hd "time" with
      | none => [("error", .str "Error processing forecast data: malformed provider payload")]
      | some times =>
        match buildPeriods (if hourly then hourlyPeriod else dailyPeriod) hd times with
        | none => [("error", .str "Error processing forecast data: malformed provider payload")]
        | some periods =>
            [("coordinates", .obj [("latitude", .num latitude), ("longitude", .num longitude)]),
             ("provider", .str "open-meteo"),
             ("forecast_type", .str (if hourly then "hourly" else "daily")),
             ("forecast_periods", .list periods),
             ("forecast_metadata", .obj
                [("units", dgetD data (if hourly then "hourly_units" else "daily_units") (.obj []))]),
             ("search_timestamp", .str now)]

-- =====================================================================
-- convert_currency
-- =====================================================================

/-- `convert_currency`: the `result == "success"` marker and rate checks,
then the normalized envelope — note that both the `provider` identifier and
the timestamp sit inside `search_metadata`, with no top-level `provider`. A
string or boolean `conversion_rate` (which Python would coerce with `float`)
is collapsed into the missing-rate branch; no theorem exercises it. -/
def convert_currency (from_currency to_currency : String) (amount : ℚ)
    (api_key : String) (http : HttpRequest → HttpOutcome) (now : String) :
    List (String × JValue) :=
  match http (currencyRequest from_currency to_currency api_key) with
  | .exn m => [("error", .str ("Currency API request failed: " ++ m))]
  | .ok data =>
    let okResult : Bool :=
      match dgetD data "result" .null with
      | .str s => s == "success"
      | _ => false
    if okResult then
      let mkEnv := fun (rateJ : JValue) (r : ℚ) =>
        [("search_metadata", .obj
            [("from_currency", .str (strUpper from_currency)),
             ("to_currency", .str (strUpper to_currency)),
             ("amount", .num amount),
             ("search_timestamp", .str now),
             ("provider", .str "exchangerate-api")]),
         ("exchange_rate", rateJ),
         ("conversion", .obj
            [("original_amount", .num amount),
             ("converted_amount", .num (round2 (amount * r))),
             ("rate", rateJ)])]
      match dlookup data "conversion_rate" with
      | some (.num r) => mkEnv (.num r) r
      | some (.int n) => mkEnv (.int n) (n : ℚ)
      | _ => [("error", .str "Conversion rate not available")]
    else
      [("error",
        if jTruthy (dgetD data "error-type" .null) then dgetD data "error-type" .null
        else .str "ExchangeRate-API error")]

-- =====================================================================
-- Dictionary lemmas
-- =====================================================================

@[simp] theorem dlookup_nil (k : String) : dlookup [] k = none := rfl

@[simp] theorem dlookup_cons (k' : String) (v' : JValue)
    (rest : List (String × JValue)) (k : String) :
    dlookup ((k', v') :: rest) k =
      if k' = k then some v' else dlookup rest k := rfl

theorem dlookup_dictSet (p : List (String × JValue)) (k k' : String) (v : JValue) :
    dlookup (dictSet p k' v) k = if k' = k then some v else dlookup p k := by
  induction p with
  | nil => simp [dictSet]
  | cons hd tl ih =>
      obtain ⟨k₀, v₀⟩ := hd
      simp only [dictSet]
      by_cases h0 : k₀ = k'
      · subst h0
        by_cases h1 : k₀ = k <;> simp [h1]
      · by_cases h1 : k₀ = k
        · subst h1
          have h2 : ¬ k' = k₀ := fun h => h0 h.symm
          simp [h0, h2]
        · simp [h0, h1, ih]

theorem dlookup_dictSetIf (c : Bool) (p : List (String × JValue))
    (k' k : String) (v : JValue) :
    dlookup (dictSetIf c p k' v) k =
      if c && decide (k' = k) then some v else dlookup p k := by
  cases c <;> simp [dictSetIf, dlookup_dictSet]

theorem pySlice_length {α : Type} (l : List α) (m : Int) (h : 0 ≤ m) :
    ((pySlice l m).length : Int) = min (l.length : Int) m := by
  rw [pySlice, if_pos h, List.length_take]
  omega

theorem pySlice_get {α : Type} (l : List α) (m : Int) (h : 0 ≤ m) (i : Nat)
    (hi : i < (pySlice l m).length) : (pySlice l m).get? i = l.get? i := by
  rw [pySlice, if_pos h] at hi ⊢
  have hlt : i < m.toNat := by
    rw [List.length_take] at hi
    omega
  simpa using List.getElem?_take_of_lt (l := l) hlt

-- =====================================================================
-- Claim theorems
-- =====================================================================

/-- C3: a hotel-offer lookup in which both the city code and the hotel
identifiers are unset returns the validation-error envelope naming both
fields, and it does so for every provider oracle — the result does not depend
on the provider, i.e. no outbound call occurs. -/
theorem claim_C3_offers_cross_field (a : HotelOffersArgs)
    (provider : List (String × JValue) → AmadeusOutcome) (now : String)
    (hc : a.cityCode = none) (hh : a.hotelIds = none) :
    search_hotel_offers_amadeus a provider now =
      [("error", .str "Either cityCode or hotelIds must be provided")] := by
  simp [search_hotel_offers_amadeus, optStrT, hc, hh]

theorem claim_C3_offers_cross_field_witness :
    search_hotel_offers_amadeus {} (fun _ => .ok [("data", .list [])]) "T" =
      [("error", .str "Either cityCode or hotelIds must be provided")] :=
  claim_C3_offers_cross_field {} (fun _ => .ok [("data", .list [])]) "T" rfl rfl

/-- C4: a professional flight search whose `adults` value is non-zero (not
treated as unset) and outside the closed range 1–9 returns exactly the
`Adults must be between 1 and 9` error envelope, for every provider oracle —
so no network call is made. -/
theorem claim_C4_adults_bounds (a : AmadeusFlightArgs)
    (provider : List (String × JValue) → AmadeusOutcome) (now : String)
    (h0 : a.adults ≠ 0) (h1 : ¬(1 ≤ a.adults ∧ a.adults ≤ 9)) :
    search_flights_amadeus a provider now =
      [("error", .str "Adults must be between 1 and 9")] := by
  have hguard :
      (intT a.adults && !(decide (1 ≤ a.adults) && decide (a.adults ≤ 9))) = true := by
    simp only [intT, Bool.and_eq_true, Bool.not_eq_true', Bool.and_eq_false_iff,
      decide_eq_true_eq, decide_eq_false_iff_not, ne_eq]
    constructor
    · simpa using h0
    · omega
  have hval : amadeusFlightValidate a = some "Adults must be between 1 and 9" := by
    rw [amadeusFlightValidate, if_pos hguard]
  simp [search_flights_amadeus, hval]

theorem claim_C4_adults_bounds_witness :
    search_flights_amadeus
      { originLocationCode := "SYD", destinationLocationCode := "BKK",
        departureDate := "2023-05-02", adults := 10 }
      (fun _ => .ok [("data", .list [])]) "T" =
      [("error", .str "Adults must be between 1 and 9")] :=
  claim_C4_adults_bounds _ _ _ (by decide) (by decide)

/-- C8: with `adults = 0` the 1–9 passenger guard (and every other guard) is
skipped by Python truthiness, so validation passes and the provider parameter
mapping forwards `adults = 0` to the provider. -/
theorem claim_C8_adults_zero_skips_guard (a : AmadeusFlightArgs)
    (h : a.adults = 0) :
    amadeusFlightValidate a = none ∧
    dlookup (amadeusFlightParams a) "adults" = some (.int 0) := by
  constructor
  · simp [amadeusFlightValidate, intT, h]
  · simp [amadeusFlightParams, h, dlookup_dictSetIf, dlookup_dictSet]

theorem claim_C8_adults_zero_skips_guard_witness :
    amadeusFlightValidate
      { originLocationCode := "SYD", destinationLocationCode := "BKK",
        departureDate := "2023-05-02", adults := 0 } = none ∧
    dlookup (amadeusFlightParams
      { originLocationCode := "SYD", destinationLocationCode := "BKK",
        departureDate := "2023-05-02", adults := 0 }) "adults" =
      some (.int 0) :=
  claim_C8_adults_zero_skips_guard _ rfl

/-- C9: when both the date filter and the event type are supplied (truthy),
the `event_type` assignment overwrites the single `htichips` key, so the only
`htichips` binding sent to the provider is the event-type chip and the date
filter never reaches the outbound request. -/
theorem claim_C9_htichips_overwrite (a : SerpEventArgs) (api_key : String)
    (hd : optStrT a.date_filter = true) (he : optStrT a.event_type = true) :
    dlookup (serpEventsParams a api_key) "htichips" =
        some (.str ("event_type:" ++ a.event_type.getD "")) ∧
    (serpEventsParams a api_key).filter (fun kv => decide (kv.1 = "htichips")) =
        [("htichips", .str ("event_type:" ++ a.event_type.getD ""))] := by
  constructor
  · simp [serpEventsParams, dlookup_dictSetIf, dlookup_dictSet, hd, he]
  · simp [serpEventsParams, dictSetIf, dictSet, hd, he, List.filter]

theorem claim_C9_htichips_overwrite_witness :
    dlookup (serpEventsParams
        { query := "concerts", date_filter := some "week",
          event_type := some "Virtual-Event" } "K") "htichips" =
      some (.str ("event_type:" ++ "Virtual-Event")) ∧
    (serpEventsParams
        { query := "concerts", date_filter := some "week",
          event_type := some "Virtual-Event" } "K").filter
        (fun kv => decide (kv.1 = "htichips")) =
      [("htichips", .str ("event_type:" ++ "Virtual-Event"))] :=
  claim_C9_htichips_overwrite _ "K" (by decide) (by decide)

/-- C10: a unit whose lowercase form is neither "miles" nor "nm" falls back
to kilometers for the reported distance value while echoing the lowercased
unit, and no unit value ever produces an error envelope. -/
theorem claim_C10_unit_fallback (geodesic : ℚ → ℚ → ℚ → ℚ → GeoDist)
    (lat1 lon1 lat2 lon2 : ℚ) (unit : String) (now : String)
    (hm : (strLower unit) ≠ "miles") (hn : (strLower unit) ≠ "nm") :
    dlookup (calculate_distance geodesic lat1 lon1 lat2 lon2 unit now) "distance" =
      some (.obj
        [("value", .num (round2 (geodesic lat1 lon1 lat2 lon2).kilometers)),
         ("unit", .str (strLower unit))]) ∧
    ∀ u : String,
      dlookup (calculate_distance geodesic lat1 lon1 lat2 lon2 u now) "error" = none := by
  constructor
  · simp [calculate_distance, hm, hn]
  · intro u
    simp [calculate_distance]

theorem claim_C10_unit_fallback_witness :
    dlookup (calculate_distance (fun _ _ _ _ => ⟨10, 6, 5⟩) 1 2 3 4 "yards" "T")
        "distance" =
      some (.obj [("value", .num (round2 10)), ("unit", .str "yards")]) ∧
    ∀ u : String,
      dlookup (calculate_distance (fun _ _ _ _ => ⟨10, 6, 5⟩) 1 2 3 4 u "T")
        "error" = none :=
  claim_C10_unit_fallback _ 1 2 3 4 "yards" "T" (by decide) (by decide)

/-- C1 counterexample: in the activities search, leaving the optional
`radius` unset (None) does not omit the provider key — the mapping contains
`radius = 1`, a default value, because the source builds the parameter as
`radius or 1`. -/
theorem claim_C1_counterexample :
    dlookup (activitiesParams { latitude := 48, longitude := 2, radius := none })
      "radius" = some (.int 1) := rfl

/-- C1 (amended): for every tool except the activities search, an optional
argument whose value is the unset sentinel (None) is omitted from the
provider parameters; the activities search instead emits the default
`radius = 1` when its optional radius is None. Stated via record updates, so
each conjunct covers every value of the remaining arguments. -/
theorem claim_C1_omit_unset_optionals :
    (∀ a : AmadeusFlightArgs,
      dlookup (amadeusFlightParams { a with returnDate := none }) "returnDate" = none ∧
      dlookup (amadeusFlightParams { a with children := none }) "children" = none ∧
      dlookup (amadeusFlightParams { a with infants := none }) "infants" = none ∧
      dlookup (amadeusFlightParams { a with travelClass := none }) "travelClass" = none ∧
      dlookup (amadeusFlightParams { a with includedAirlineCodes := none }) "includedAirlineCodes" = none ∧
      dlookup (amadeusFlightParams { a with excludedAirlineCodes := none }) "excludedAirlineCodes" = none ∧
      dlookup (amadeusFlightParams { a with nonStop := none }) "nonStop" = none ∧
      dlookup (amadeusFlightParams { a with currencyCode := none }) "currencyCode" = none ∧
      dlookup (amadeusFlightParams { a with maxPrice := none }) "maxPrice" = none ∧
      dlookup (amadeusFlightParams { a with max := none }) "max" = none) ∧
    (∀ (a : SerpHotelArgs) (k : String),
      dlookup (serpHotelsParams { a with children_ages := none } k) "children_ages" = none ∧
      dlookup (serpHotelsParams { a with sort_by := none } k) "sort_by" = none ∧
      dlookup (serpHotelsParams { a with hotel_class := none } k) "hotel_class" = none ∧
      dlookup (serpHotelsParams { a with amenities := none } k) "amenities" = none ∧
      dlookup (serpHotelsParams { a with property_types := none } k) "property_types" = none ∧
      dlookup (serpHotelsParams { a with brands := none } k) "brands" = none ∧
      dlookup (serpHotelsParams { a with bedrooms := none } k) "bedrooms" = none) ∧
    (∀ a : HotelOffersArgs,
      dlookup (hotelOffersParams { a with cityCode := none }) "cityCode" = none ∧
      dlookup (hotelOffersParams { a with hotelIds := none }) "hotelIds" = none ∧
      dlookup (hotelOffersParams { a with checkInDate := none }) "checkInDate" = none ∧
      dlookup (hotelOffersParams { a with checkOutDate := none }) "checkOutDate" = none ∧
      dlookup (hotelOffersParams { a with roomQuantity := none }) "roomQuantity" = none ∧
      dlookup (hotelOffersParams { a with priceRange := none }) "priceRange" = none ∧
      dlookup (hotelOffersParams { a with currency := none }) "currency" = none ∧
      dlookup (hotelOffersParams { a with paymentPolicy := none }) "paymentPolicy" = none ∧
      dlookup (hotelOffersParams { a with boardType := none }) "boardType" = none ∧
      dlookup (hotelOffersParams { a with includeClosed := none }) "includeClosed" = none ∧
      dlookup (hotelOffersParams { a with bestRateOnly := none }) "bestRateOnly" = none ∧
      dlookup (hotelOffersParams { a with view := none }) "view" = none ∧
      dlookup (hotelOffersParams { a with sort := none }) "sort" = none ∧
      dlookup (hotelOffersParams { a with lang := none }) "lang" = none) ∧
    (∀ a : AmadeusCityHotelArgs,
      dlookup (amadeusCityHotelParams { a with radius := none }) "radius" = none ∧
      dlookup (amadeusCityHotelParams { a with radiusUnit := none }) "radiusUnit" = none ∧
      dlookup (amadeusCityHotelParams { a with chainCodes := none }) "chainCodes" = none ∧
      dlookup (amadeusCityHotelParams { a with amenities := none }) "amenities" = none ∧
      dlookup (amadeusCityHotelParams { a with ratings := none }) "ratings" = none ∧
      dlookup (amadeusCityHotelParams { a with hotelSource := none }) "hotelSource" = none) ∧
    (∀ a : AmadeusGeoHotelArgs,
      dlookup (amadeusGeoHotelParams { a with radius := none }) "radius" = none ∧
      dlookup (amadeusGeoHotelParams { a with radiusUnit := none }) "radiusUnit" = none ∧
      dlookup (amadeusGeoHotelParams { a with chainCodes := none }) "chainCodes" = none ∧
      dlookup (amadeusGeoHotelParams { a with amenities := none }) "amenities" = none ∧
      dlookup (amadeusGeoHotelParams { a with ratings := none }) "ratings" = none ∧
      dlookup (amadeusGeoHotelParams { a with hotelSource := none }) "hotelSource" = none) ∧
    (∀ (a : SerpEventArgs) (k : String),
      dlookup (serpEventsParams { a with date_filter := none, event_type := none } k)
        "htichips" = none) ∧
    (∀ (a : SerpFlightArgs) (k : String),
      dlookup (serpFlightsParams { a with return_date := none } k) "return_date" = none) ∧
    (∀ (a : StockArgs) (k : String),
      dlookup (stockParams { a with window := none } k) "window" = none) ∧
    (∀ a : GeocodeArgs,
      dlookup (geocodeParams { a with country_codes := none }) "country_codes" = none) ∧
    (∀ a : ActivitiesArgs,
      dlookup (activitiesParams { a with radius := none }) "radius" = some (.int 1)) := by
  refine ⟨?_, ?_, ?_, ?_, ?_, ?_, ?_, ?_, ?_, ?_⟩
  · intro a
    refine ⟨?_, ?_, ?_, ?_, ?_, ?_, ?_, ?_, ?_, ?_⟩ <;>
      simp [amadeusFlightParams, optStrT, dlookup_dictSetIf, dlookup_dictSet]
  · intro a k
    refine ⟨?_, ?_, ?_, ?_, ?_, ?_, ?_⟩ <;>
      simp [serpHotelsParams, optStrT, optIntT, optListT, dlookup_dictSetIf, dlookup_dictSet]
  · intro a
    refine ⟨?_, ?_, ?_, ?_, ?_, ?_, ?_, ?_, ?_, ?_, ?_, ?_, ?_, ?_⟩ <;>
      simp [hotelOffersParams, optStrT, dlookup_dictSetIf, dlookup_dictSet]
  · intro a
    refine ⟨?_, ?_, ?_, ?_, ?_, ?_⟩ <;>
      simp [amadeusCityHotelParams, optStrT, dlookup_dictSetIf, dlookup_dictSet]
  · intro a
    refine ⟨?_, ?_, ?_, ?_, ?_, ?_⟩ <;>
      simp [amadeusGeoHotelParams, optStrT, dlookup_dictSetIf, dlookup_dictSet]
  · intro a k
    simp [serpEventsParams, optStrT, dlookup_dictSetIf, dlookup_dictSet]
  · intro a k
    simp [serpFlightsParams, optStrT, dlookup_dictSetIf, dlookup_dictSet]
  · intro a k
    simp [stockParams, optStrT, dlookup_dictSetIf, dlookup_dictSet]
  · intro a
    simp [geocodeParams, optStrT, dlookup_dictSetIf, dlookup_dictSet]
  · intro a
    simp [activitiesParams, pyOrInt]

/-- C2 counterexample: a successful stock lookup returns an envelope with no
top-level `provider` key (so not the full UnifiedEnvelope shape), and the
geocoder's location-not-found failure returns an `error` mapping carrying an
extra `suggestions` key (so not a single-key error mapping plus `note`). -/
theorem claim_C2_counterexample :
    dlookup (lookup_stock { symbol := "DAL" } "KEY" (fun _ => .ok []) "T")
        "provider" = none ∧
    dlookup (lookup_stock { symbol := "DAL" } "KEY" (fun _ => .ok []) "T")
        "error" = none ∧
    geocode_location { location := "Atlantis" } (fun _ _ => .noResult) "T" =
      [("error", .str "Location \x27Atlantis\x27 not found"),
       ("suggestions", .str "Try using a more specific address or well-known landmark name")] :=
  ⟨rfl, rfl, rfl⟩

theorem pyIndex_travelClassNames_some (t : Int) (h1 : 1 ≤ t) (h4 : t ≤ 4) :
    ∃ cls, pyIndex travelClassNames (t - 1) = some cls := by
  have h0 : (0:Int) ≤ t - 1 := by omega
  rw [pyIndex, if_pos h0]
  have hlt : (t - 1).toNat < travelClassNames.length := by
    simp [travelClassNames]
    omega
  exact ⟨_, List.get?_eq_get hlt⟩

theorem pyIndex_travelClassNames_none (t : Int) (h : 5 ≤ t ∨ t ≤ -4) :
    pyIndex travelClassNames (t - 1) = none := by
  rcases h with h | h
  · have h0 : (0:Int) ≤ t - 1 := by omega
    rw [pyIndex, if_pos h0]
    apply List.get?_eq_none.mpr
    simp [travelClassNames]
    omega
  · have h0 : ¬ (0:Int) ≤ t - 1 := by omega
    have h5 : ¬ ((-(t - 1)).toNat ≤ travelClassNames.length) := by
      simp [travelClassNames]
      omega
    rw [pyIndex, if_neg h0, if_neg h5]

/-- C6 counterexample: an out-of-range enumerated trip type (99) does not
yield a ValidationError — the call succeeds (no `error` key) and the value is
silently mapped to the default "Multi-city" label. -/
theorem claim_C6_counterexample :
    dlookup (search_flights_serpapi
      { departure_id := "DEL", arrival_id := "CDG",
        outbound_date := "2025-06-15", trip_type := 99 }
      "K" (fun _ => .ok []) "T") "error" = none ∧
    mdField (search_flights_serpapi
      { departure_id := "DEL", arrival_id := "CDG",
        outbound_date := "2025-06-15", trip_type := 99 }
      "K" (fun _ => .ok []) "T") "trip_type" = some (.str "Multi-city") :=
  ⟨rfl, rfl⟩

/-- C6 (amended): out-of-range enumerated values are not validated. A trip
type outside the lookup domain 1, 2 is silently mapped to the default
"Multi-city" label in a success envelope, and a travel class outside the
table (at least 5, or at most -4) surfaces — after the provider call — as an
`Unexpected error: list index out of range` envelope; neither case is a
ValidationError. -/
theorem claim_C6_enum_no_validation :
    (∀ (a : SerpFlightArgs) (key : String) (http : HttpRequest → HttpOutcome)
        (body : List (String × JValue)) (now : String) (bf ofl : List JValue),
      http (serpFlightsRequest a key) = .ok body →
      a.trip_type ≠ 1 → a.trip_type ≠ 2 →
      1 ≤ a.travel_class → a.travel_class ≤ 4 →
      pyGetSlice body "best_flights" a.max_results = some bf →
      pyGetSlice body "other_flights" a.max_results = some ofl →
      dlookup (search_flights_serpapi a key http now) "error" = none ∧
      mdField (search_flights_serpapi a key http now) "trip_type" =
        some (.str "Multi-city")) ∧
    (∀ (a : SerpFlightArgs) (key : String) (http : HttpRequest → HttpOutcome)
        (body : List (String × JValue)) (now : String),
      http (serpFlightsRequest a key) = .ok body →
      (5 ≤ a.travel_class ∨ a.travel_class ≤ -4) →
      search_flights_serpapi a key http now =
        [("error", .str "Unexpected error: list index out of range")]) := by
  constructor
  · intro a key http body now bf ofl hok h1 h2 htc1 htc4 hbf hof
    obtain ⟨cls, hcls⟩ := pyIndex_travelClassNames_some a.travel_class htc1 htc4
    constructor <;>
      simp [search_flights_serpapi, hok, serpFlightsNormalize, hcls, hbf, hof,
        mdField, tripTypeLabel, h1, h2]
  · intro a key http body now hok hbad
    have hnone := pyIndex_travelClassNames_none a.travel_class hbad
    simp [search_flights_serpapi, hok, serpFlightsNormalize, hnone]

theorem claim_C6_enum_no_validation_witness :
    (dlookup (search_flights_serpapi
        { departure_id := "JFK", arrival_id := "LHR",
          outbound_date := "2025-07-01", trip_type := 7 }
        "K" (fun _ => .ok []) "T") "error" = none ∧
     mdField (search_flights_serpapi
        { departure_id := "JFK", arrival_id := "LHR",
          outbound_date := "2025-07-01", trip_type := 7 }
        "K" (fun _ => .ok []) "T") "trip_type" = some (.str "Multi-city")) ∧
    (search_flights_serpapi
        { departure_id := "JFK", arrival_id := "LHR",
          outbound_date := "2025-07-01", travel_class := 5 }
        "K" (fun _ => .ok []) "T" =
      [("error", .str "Unexpected error: list index out of range")]) :=
  ⟨claim_C6_enum_no_validation.1
      { departure_id := "JFK", arrival_id := "LHR",
        outbound_date := "2025-07-01", trip_type := 7 }
      "K" _ [] "T" [] [] rfl (by decide) (by decide) (by decide) (by decide) rfl rfl,
   claim_C6_enum_no_validation.2
      { departure_id := "JFK", arrival_id := "LHR",
        outbound_date := "2025-07-01", travel_class := 5 }
      "K" _ [] "T" rfl (by decide)⟩

/-- C7 counterexample: the SerpAPI flight-search request is issued with no
`timeout=` argument at all, so it is not made with a fixed 10-second
timeout. -/
theorem claim_C7_counterexample :
    (serpFlightsRequest
      { departure_id := "DEL", arrival_id := "CDG",
        outbound_date := "2025-06-15" } "KEY").timeout ≠ some 10 := by
  decide

/-- C7 (amended): only the weather and currency requests carry the fixed
10-second timeout; the four SerpAPI requests (flights, hotels, events, stock)
are issued with no timeout, and the geocoder receives the caller-supplied
timeout argument (default 10) rather than a fixed one. -/
theorem claim_C7_timeouts :
    (∀ (a : SerpFlightArgs) (k : String), (serpFlightsRequest a k).timeout = none) ∧
    (∀ (a : SerpHotelArgs) (k : String), (serpHotelsRequest a k).timeout = none) ∧
    (∀ (a : SerpEventArgs) (k : String), (serpEventsRequest a k).timeout = none) ∧
    (∀ (a : StockArgs) (k : String), (stockRequest a k).timeout = none) ∧
    (∀ la lo : ℚ, (currentConditionsRequest la lo).timeout = some 10) ∧
    (∀ (la lo : ℚ) (h : Bool), (forecastRequest la lo h).timeout = some 10) ∧
    (∀ f t k : String, (currencyRequest f t k).timeout = some 10) ∧
    (∀ a : GeocodeArgs, dlookup (geocodeParams a) "timeout" = some (.int a.timeout)) := by
  refine ⟨fun a k => rfl, fun a k => rfl, fun a k => rfl, fun a k => rfl,
    fun la lo => rfl, fun la lo h => rfl, fun f t k => rfl, fun a => ?_⟩
  simp [geocodeParams, dlookup_dictSetIf, dlookup_dictSet]

theorem serpFlightsNormalize_lists (a : SerpFlightArgs)
    (body : List (String × JValue)) (now : String) (cls : String)
    (bf ofl : List JValue)
    (hcls : pyIndex travelClassNames (a.travel_class - 1) = some cls)
    (hbf : dlookup body "best_flights" = some (.list bf))
    (hof : dlookup body "other_flights" = some (.list ofl)) :
    envListField (serpFlightsNormalize a body now) "best_flights" =
      pySlice bf a.max_results ∧
    envListField (serpFlightsNormalize a body now) "other_flights" =
      pySlice ofl a.max_results := by
  constructor <;>
    simp [serpFlightsNormalize, hcls, pyGetSlice, hbf, hof, envListField]

theorem serpHotelsNormalize_props (a : SerpHotelArgs)
    (body : List (String × JValue)) (now : String) (props : List JValue)
    (hp : dlookup body "properties" = some (.list props)) :
    envListField (serpHotelsNormalize a body now) "properties" =
      pySlice props a.max_results := by
  simp [serpHotelsNormalize, pyGetSlice, hp, envListField]

/-- C5: every result collection of a normalized envelope is the caller-bounded
truncation of the provider list: for a non-negative caller maximum m the
output length is min(n, m), elements keep the provider's order (the element
at every in-range position equals the provider's element there), and the two
parallel flight categories are truncated independently to the same m. -/
theorem claim_C5_truncation :
    (∀ (a : SerpFlightArgs) (body : List (String × JValue)) (now : String)
        (bf ofl : List JValue),
      0 ≤ a.max_results →
      1 ≤ a.travel_class → a.travel_class ≤ 4 →
      dlookup body "best_flights" = some (.list bf) →
      dlookup body "other_flights" = some (.list ofl) →
      ((envListField (serpFlightsNormalize a body now) "best_flights").length : Int) =
          min (bf.length : Int) a.max_results ∧
      (∀ i : Nat, i < (envListField (serpFlightsNormalize a body now) "best_flights").length →
          (envListField (serpFlightsNormalize a body now) "best_flights").get? i = bf.get? i) ∧
      ((envListField (serpFlightsNormalize a body now) "other_flights").length : Int) =
          min (ofl.length : Int) a.max_results ∧
      (∀ i : Nat, i < (envListField (serpFlightsNormalize a body now) "other_flights").length →
          (envListField (serpFlightsNormalize a body now) "other_flights").get? i = ofl.get? i)) ∧
    (∀ (a : SerpHotelArgs) (body : List (String × JValue)) (now : String)
        (props : List JValue),
      0 ≤ a.max_results →
      dlookup body "properties" = some (.list props) →
      ((envListField (serpHotelsNormalize a body now) "properties").length : Int) =
          min (props.length : Int) a.max_results ∧
      (∀ i : Nat, i < (envListField (serpHotelsNormalize a body now) "properties").length →
          (envListField (serpHotelsNormalize a body now) "properties").get? i = props.get? i)) := by
  constructor
  · intro a body now bf ofl hm htc1 htc4 hbf hof
    obtain ⟨cls, hcls⟩ := pyIndex_travelClassNames_some a.travel_class htc1 htc4
    obtain ⟨e1, e2⟩ := serpFlightsNormalize_lists a body now cls bf ofl hcls hbf hof
    rw [e1, e2]
    exact ⟨pySlice_length bf a.max_results hm,
      fun i hi => pySlice_get bf a.max_results hm i hi,
      pySlice_length ofl a.max_results hm,
      fun i hi => pySlice_get ofl a.max_results hm i hi⟩
  · intro a body now props hm hp
    rw [serpHotelsNormalize_props a body now props hp]
    exact ⟨pySlice_length props a.max_results hm,
      fun i hi => pySlice_get props a.max_results hm i hi⟩

theorem claim_C5_truncation_witness :
    (((envListField (serpFlightsNormalize
          { departure_id := "DEL", arrival_id := "CDG",
            outbound_date := "2025-06-15", max_results := 2 }
          [("best_flights", .list [.int 1, .int 2, .int 3]),
           ("other_flights", .list [.int 4])] "T") "best_flights").length : Int) =
        min ((3 : Nat) : Int) 2 ∧
     (∀ i : Nat, i < (envListField (serpFlightsNormalize
          { departure_id := "DEL", arrival_id := "CDG",
            outbound_date := "2025-06-15", max_results := 2 }
          [("best_flights", .list [.int 1, .int 2, .int 3]),
           ("other_flights", .list [.int 4])] "T") "best_flights").length →
        (envListField (serpFlightsNormalize
          { departure_id := "DEL", arrival_id := "CDG",
            outbound_date := "2025-06-15", max_results := 2 }
          [("best_flights", .list [.int 1, .int 2, .int 3]),
           ("other_flights", .list [.int 4])] "T") "best_flights").get? i =
          [JValue.int 1, JValue.int 2, JValue.int 3].get? i) ∧
     ((envListField (serpFlightsNormalize
          { departure_id := "DEL", arrival_id := "CDG",
            outbound_date := "2025-06-15", max_results := 2 }
          [("best_flights", .list [.int 1, .int 2, .int 3]),
           ("other_flights", .list [.int 4])] "T") "other_flights").length : Int) =
        min ((1 : Nat) : Int) 2 ∧
     (∀ i : Nat, i < (envListField (serpFlightsNormalize
          { departure_id := "DEL", arrival_id := "CDG",
            outbound_date := "2025-06-15", max_results := 2 }
          [("best_flights", .list [.int 1, .int 2, .int 3]),
           ("other_flights", .list [.int 4])] "T") "other_flights").length →
        (envListField (serpFlightsNormalize
          { departure_id := "DEL", arrival_id := "CDG",
            outbound_date := "2025-06-15", max_results := 2 }
          [("best_flights", .list [.int 1, .int 2, .int 3]),
           ("other_flights", .list [.int 4])] "T") "other_flights").get? i =
          [JValue.int 4].get? i)) ∧
    (((envListField (serpHotelsNormalize
          { location := "Paris", check_in_date := "2025-06-15",
            check_out_date := "2025-06-20", max_results := 1 }
          [("properties", .list [.int 7, .int 8])] "T") "properties").length : Int) =
        min ((2 : Nat) : Int) 1 ∧
     (∀ i : Nat, i < (envListField (serpHotelsNormalize
          { location := "Paris", check_in_date := "2025-06-15",
            check_out_date := "2025-06-20", max_results := 1 }
          [("properties", .list [.int 7, .int 8])] "T") "properties").length →
        (envListField (serpHotelsNormalize
          { location := "Paris", check_in_date := "2025-06-15",
            check_out_date := "2025-06-20", max_results := 1 }
          [("properties", .list [.int 7, .int 8])] "T") "properties").get? i =
          [JValue.int 7, JValue.int 8].get? i)) :=
  ⟨claim_C5_truncation.1
      { departure_id := "DEL", arrival_id := "CDG",
        outbound_date := "2025-06-15", max_results := 2 }
      [("best_flights", .list [.int 1, .int 2, .int 3]),
       ("other_flights", .list [.int 4])] "T"
      [.int 1, .int 2, .int 3] [.int 4]
      (by decide) (by decide) (by decide) rfl rfl,
   claim_C5_truncation.2
      { location := "Paris", check_in_date := "2025-06-15",
        check_out_date := "2025-06-20", max_results := 1 }
      [("properties", .list [.int 7, .int 8])] "T" [.int 7, .int 8]
      (by decide) rfl⟩

theorem offers_guard_false (a : HotelOffersArgs)
    (hor : (optStrT a.cityCode || optStrT a.hotelIds) = true) :
    (!optStrT a.cityCode && !optStrT a.hotelIds) = false := by
  cases h1 : optStrT a.cityCode <;> cases h2 : optStrT a.hotelIds <;> simp_all

/-- C2 (amended): successful calls of the consumer search tools (flights,
hotels, events), of the six Amadeus tools and of the two weather tools return
envelopes stamped with a provider identifier and a normalization timestamp
(both top-level for the Amadeus and weather tools; for the SerpAPI search
tools the provider is top-level and the timestamp sits inside
`search_metadata`), and failed calls return a single-key `error` mapping plus
at most a `note` — except: `lookup_stock` and `convert_currency` stamp no
top-level provider (their timestamps, and `convert_currency`'s provider
identifier, sit inside `search_metadata`; `lookup_stock` names no provider at
all), `geocode_location`'s and `calculate_distance`'s success envelopes carry
no provider (only a timestamp), and `geocode_location`'s location-not-found
failure adds a `suggestions` key to the `error` mapping. -/
theorem claim_C2_envelope_shape :
    ( -- consumer search tools: top-level provider, timestamp in metadata
     (∀ (a : SerpFlightArgs) (key : String) (body : List (String × JValue))
        (now cls : String) (bf ofl : List JValue),
       pyIndex travelClassNames (a.travel_class - 1) = some cls →
       pyGetSlice body "best_flights" a.max_results = some bf →
       pyGetSlice body "other_flights" a.max_results = some ofl →
       dlookup (search_flights_serpapi a key (fun _ => .ok body) now) "provider" =
           some (.str "Google Flights (SerpAPI)") ∧
       mdField (search_flights_serpapi a key (fun _ => .ok body) now) "search_timestamp" =
           some (.str now)) ∧
     (∀ (a : SerpHotelArgs) (key : String) (body : List (String × JValue))
        (now : String) (props : List JValue),
       pyGetSlice body "properties" a.max_results = some props →
       dlookup (search_hotels_serpapi a key (fun _ => .ok body) now) "provider" =
           some (.str "Google Hotels (SerpAPI)") ∧
       mdField (search_hotels_serpapi a key (fun _ => .ok body) now) "search_timestamp" =
           some (.str now)) ∧
     (∀ (a : SerpEventArgs) (key : String) (body : List (String × JValue))
        (now : String) (evs : List JValue),
       pyGetSlice body "events_results" a.max_results = some evs →
       dlookup (search_events_serpapi a key (fun _ => .ok body) now) "provider" =
           some (.str "Google Events (SerpAPI)") ∧
       mdField (search_events_serpapi a key (fun _ => .ok body) now) "search_timestamp" =
           some (.str now))) ∧
    ( -- Amadeus tools: top-level provider and timestamp on success
     (∀ (a : AmadeusFlightArgs) (body : List (String × JValue)) (now : String),
       amadeusFlightValidate a = none →
       dlookup (search_flights_amadeus a (fun _ => .ok body) now) "provider" =
           some (.str "Amadeus GDS") ∧
       dlookup (search_flights_amadeus a (fun _ => .ok body) now) "search_timestamp" =
           some (.str now)) ∧
     (∀ (a : AmadeusCityHotelArgs) (body : List (String × JValue)) (now : String),
       dlookup (search_hotels_amadeus_by_city a (fun _ => .ok body) now) "provider" =
           some (.str "Amadeus GDS") ∧
       dlookup (search_hotels_amadeus_by_city a (fun _ => .ok body) now) "search_timestamp" =
           some (.str now)) ∧
     (∀ (a : AmadeusGeoHotelArgs) (body : List (String × JValue)) (now : String),
       dlookup (search_hotels_amadeus_geocode a (fun _ => .ok body) now) "provider" =
           some (.str "Amadeus GDS") ∧
       dlookup (search_hotels_amadeus_geocode a (fun _ => .ok body) now) "search_timestamp" =
           some (.str now)) ∧
     (∀ (a : HotelOffersArgs) (body : List (String × JValue)) (now : String),
       (optStrT a.cityCode || optStrT a.hotelIds) = true →
       dlookup (search_hotel_offers_amadeus a (fun _ => .ok body) now) "provider" =
           some (.str "Amadeus GDS") ∧
       dlookup (search_hotel_offers_amadeus a (fun _ => .ok body) now) "search_timestamp" =
           some (.str now)) ∧
     (∀ (a : ActivitiesArgs) (body : List (String × JValue)) (now : String),
       dlookup (search_activities_amadeus a (fun _ => .ok body) now) "provider" =
           some (.str "Amadeus GDS") ∧
       dlookup (search_activities_amadeus a (fun _ => .ok body) now) "search_timestamp" =
           some (.str now)) ∧
     (∀ (i : String) (body : List (String × JValue)) (now : String),
       dlookup (get_activity_details_amadeus i (fun _ => .ok body) now) "provider" =
           some (.str "Amadeus GDS") ∧
       dlookup (get_activity_details_amadeus i (fun _ => .ok body) now) "search_timestamp" =
           some (.str now))) ∧
    ( -- weather tools: top-level provider and timestamp on success
     (∀ (la lo : ℚ) (now : String) (x : String × JValue)
        (cs ds : List (String × JValue)),
       dlookup (get_current_conditions la lo
           (fun _ => .ok (("current_weather", .obj (x :: cs)) :: ds)) now) "provider" =
           some (.str "open-meteo") ∧
       dlookup (get_current_conditions la lo
           (fun _ => .ok (("current_weather", .obj (x :: cs)) :: ds)) now) "search_timestamp" =
           some (.str now)) ∧
     (∀ (la lo : ℚ) (hourly : Bool) (body hd : List (String × JValue))
        (now : String) (times periods : List JValue),
       jGetObjD body (if hourly then "hourly" else "daily") = some hd →
       jGetListD hd "time" = some times →
       buildPeriods (if hourly then hourlyPeriod else dailyPeriod) hd times = some periods →
       dlookup (get_weather_forecast la lo hourly (fun _ => .ok body) now) "provider" =
           some (.str "open-meteo") ∧
       dlookup (get_weather_forecast la lo hourly (fun _ => .ok body) now) "search_timestamp" =
           some (.str now))) ∧
    ( -- deviating success envelopes: no top-level provider
     (∀ (a : StockArgs) (key : String) (body : List (String × JValue)) (now : String),
       dlookup (lookup_stock a key (fun _ => .ok body) now) "provider" = none ∧
       dlookup (lookup_stock a key (fun _ => .ok body) now) "error" = none ∧
       mdField (lookup_stock a key (fun _ => .ok body) now) "search_timestamp" =
           some (.str now)) ∧
     (∀ (f t : String) (amt : ℚ) (key now : String) (r : ℚ)
        (ds : List (String × JValue)),
       dlookup (convert_currency f t amt key
           (fun _ => .ok (("result", .str "success") :: ("conversion_rate", .num r) :: ds))
           now) "provider" = none ∧
       dlookup (convert_currency f t amt key
           (fun _ => .ok (("result", .str "success") :: ("conversion_rate", .num r) :: ds))
           now) "error" = none ∧
       mdField (convert_currency f t amt key
           (fun _ => .ok (("result", .str "success") :: ("conversion_rate", .num r) :: ds))
           now) "provider" = some (.str "exchangerate-api") ∧
       mdField (convert_currency f t amt key
           (fun _ => .ok (("result", .str "success") :: ("conversion_rate", .num r) :: ds))
           now) "search_timestamp" = some (.str now)) ∧
     (∀ (a : GeocodeArgs) (r : GeoResult) (rest : List GeoResult) (now : String),
       dlookup (geocode_location a (fun _ _ => .results (r :: rest)) now) "provider" = none ∧
       dlookup (geocode_location a (fun _ _ => .results (r :: rest)) now) "error" = none ∧
       dlookup (geocode_location a (fun _ _ => .results (r :: rest)) now) "search_timestamp" =
           some (.str now)) ∧
     (∀ (g : ℚ → ℚ → ℚ → ℚ → GeoDist) (la1 lo1 la2 lo2 : ℚ) (u now : String),
       dlookup (calculate_distance g la1 lo1 la2 lo2 u now) "provider" = none ∧
       dlookup (calculate_distance g la1 lo1 la2 lo2 u now) "error" = none ∧
       dlookup (calculate_distance g la1 lo1 la2 lo2 u now) "calculation_timestamp" =
           some (.str now))) ∧
    ( -- failure envelopes: a single error key, plus note for capability gaps
     ((∀ (a : SerpFlightArgs) (key now m : String),
        search_flights_serpapi a key (fun _ => .exn m) now =
          [("error", .str ("Google Flights API request failed: " ++ m))]) ∧
      (∀ (a : SerpHotelArgs) (key now m : String),
        search_hotels_serpapi a key (fun _ => .exn m) now =
          [("error", .str ("Google Hotels API request failed: " ++ m))]) ∧
      (∀ (a : SerpEventArgs) (key now m : String),
        search_events_serpapi a key (fun _ => .exn m) now =
          [("error", .str ("Google Events API request failed: " ++ m))]) ∧
      (∀ (a : StockArgs) (key now m : String),
        lookup_stock a key (fun _ => .exn m) now =
          [("error", .str ("API request failed: " ++ m))])) ∧
     ((∀ (a : AmadeusFlightArgs) (now m : String),
        amadeusFlightValidate a = none →
        search_flights_amadeus a (fun _ => .responseError m) now =
            [("error", .str ("Amadeus API error: " ++ m))] ∧
        search_flights_amadeus a (fun _ => .attrError m) now =
            [("error", .str ("Unexpected error: " ++ m))] ∧
        search_flights_amadeus a (fun _ => .exn m) now =
            [("error", .str ("Unexpected error: " ++ m))]) ∧
      (∀ (a : AmadeusCityHotelArgs) (now m : String),
        search_hotels_amadeus_by_city a (fun _ => .responseError m) now =
            [("error", .str ("Amadeus API error: " ++ m))] ∧
        search_hotels_amadeus_by_city a (fun _ => .attrError m) now =
            [("error", .str ("Unexpected error: " ++ m))] ∧
        search_hotels_amadeus_by_city a (fun _ => .exn m) now =
            [("error", .str ("Unexpected error: " ++ m))]) ∧
      (∀ (a : AmadeusGeoHotelArgs) (now m : String),
        search_hotels_amadeus_geocode a (fun _ => .responseError m) now =
            [("error", .str ("Amadeus API error: " ++ m))] ∧
        search_hotels_amadeus_geocode a (fun _ => .attrError m) now =
            [("error", .str ("Unexpected error: " ++ m))] ∧
        search_hotels_amadeus_geocode a (fun _ => .exn m) now =
            [("error", .str ("Unexpected error: " ++ m))]) ∧
      (∀ (a : HotelOffersArgs) (now m : String),
        (optStrT a.cityCode || optStrT a.hotelIds) = true →
        search_hotel_offers_amadeus a (fun _ => .responseError m) now =
            [("error", .str ("Amadeus API error: " ++ m))] ∧
        search_hotel_offers_amadeus a (fun _ => .attrError m) now =
            [("error", .str ("Unexpected error: " ++ m))] ∧
        search_hotel_offers_amadeus a (fun _ => .exn m) now =
            [("error", .str ("Unexpected error: " ++ m))]) ∧
      (∀ (a : ActivitiesArgs) (now m : String),
        search_activities_amadeus a (fun _ => .responseError m) now =
            [("error", .str ("Amadeus API error: " ++ m))] ∧
        search_activities_amadeus a (fun _ => .attrError m) now =
            [("error", .str ("Tours and Activities API not available in current SDK version: " ++ m)),
             ("note", .str "This API might require a newer SDK version or special access")] ∧
        search_activities_amadeus a (fun _ => .exn m) now =
            [("error", .str ("Unexpected error: " ++ m))]) ∧
      (∀ (i now m : String),
        get_activity_details_amadeus i (fun _ => .responseError m) now =
            [("error", .str ("Amadeus API error: " ++ m))] ∧
        get_activity_details_amadeus i (fun _ => .attrError m) now =
            [("error", .str ("Tours and Activities API not available in current SDK version: " ++ m)),
             ("note", .str "This API might require a newer SDK version or special access")] ∧
        get_activity_details_amadeus i (fun _ => .exn m) now =
            [("error", .str ("Unexpected error: " ++ m))])) ∧
     ((∀ (la lo : ℚ) (now m : String),
        get_current_conditions la lo (fun _ => .exn m) now =
          [("error", .str ("Weather API request failed: " ++ m))]) ∧
      (∀ (la lo : ℚ) (hourly : Bool) (now m : String),
        get_weather_forecast la lo hourly (fun _ => .exn m) now =
          [("error", .str ("Weather API request failed: " ++ m))]) ∧
      (∀ (la lo : ℚ) (now : String),
        get_current_conditions la lo (fun _ => .ok []) now =
          [("error", .str "Current weather not available")])) ∧
     ((∀ (f t : String) (amt : ℚ) (key now m : String),
        convert_currency f t amt key (fun _ => .exn m) now =
          [("error", .str ("Currency API request failed: " ++ m))]) ∧
      (∀ (f t : String) (amt : ℚ) (key now : String),
        convert_currency f t amt key (fun _ => .ok []) now =
          [("error", .str "ExchangeRate-API error")])) ∧
     ((∀ (a : GeocodeArgs) (now m : String),
        geocode_location a (fun _ _ => .geoException m) now =
          [("error", .str ("Geocoding service error: " ++ m))]) ∧
      (∀ (a : GeocodeArgs) (now m : String),
        geocode_location a (fun _ _ => .otherException m) now =
          [("error", .str ("Unexpected error: " ++ m))]))) ∧
    ( -- the geocoder's not-found exception to the failure shape
     ∀ (a : GeocodeArgs) (now : String),
       geocode_location a (fun _ _ => .noResult) now =
         [("error", .str ("Location \x27" ++ a.location ++ "\x27 not found")),
          ("suggestions", .str "Try using a more specific address or well-known landmark name")]) := by
  refine ⟨⟨?_, ?_, ?_⟩, ⟨?_, ?_, ?_, ?_, ?_, ?_⟩, ⟨?_, ?_⟩, ⟨?_, ?_, ?_, ?_⟩,
    ⟨⟨?_, ?_, ?_, ?_⟩, ⟨?_, ?_, ?_, ?_, ?_, ?_⟩, ⟨?_, ?_, ?_⟩, ⟨?_, ?_⟩, ⟨?_, ?_⟩⟩, ?_⟩
  · intro a key body now cls bf ofl hcls hbf hof
    constructor <;>
      simp [search_flights_serpapi, serpFlightsNormalize, hcls, hbf, hof, mdField]
  · intro a key body now props hp
    constructor <;> simp [search_hotels_serpapi, serpHotelsNormalize, hp, mdField]
  · intro a key body now evs hevs
    constructor <;> simp [search_events_serpapi, hevs, mdField]
  · intro a body now hval
    constructor <;> simp [search_flights_amadeus, hval, dlookup_dictSet]
  · intro a body now
    constructor <;> simp [search_hotels_amadeus_by_city, dlookup_dictSet]
  · intro a body now
    constructor <;> simp [search_hotels_amadeus_geocode, dlookup_dictSet]
  · intro a body now hor
    constructor <;>
      simp [search_hotel_offers_amadeus, offers_guard_false a hor, dlookup_dictSet]
  · intro a body now
    constructor <;> simp [search_activities_amadeus, dlookup_dictSet]
  · intro i body now
    constructor <;> simp [get_activity_details_amadeus, dlookup_dictSet]
  · intro la lo now x cs ds
    constructor <;> simp [get_current_conditions, dgetD, jTruthy]
  · intro la lo hourly body hd now times periods hobj htimes hper
    constructor <;> simp [get_weather_forecast, hobj, htimes, hper]
  · intro a key body now
    refine ⟨?_, ?_, ?_⟩ <;> simp [lookup_stock, mdField]
  · intro f t amt key now r ds
    refine ⟨?_, ?_, ?_, ?_⟩ <;> simp [convert_currency, dgetD, mdField]
  · intro a r rest now
    refine ⟨?_, ?_, ?_⟩ <;> (cases he : a.exactly_one <;> simp [geocode_location, he])
  · intro g la1 lo1 la2 lo2 u now
    refine ⟨?_, ?_, ?_⟩ <;> simp [calculate_distance]
  · intro a key now m
    simp [search_flights_serpapi]
  · intro a key now m
    simp [search_hotels_serpapi]
  · intro a key now m
    simp [search_events_serpapi]
  · intro a key now m
    simp [lookup_stock]
  · intro a now m hval
    refine ⟨?_, ?_, ?_⟩ <;> simp [search_flights_amadeus, hval]
  · intro a now m
    refine ⟨?_, ?_, ?_⟩ <;> simp [search_hotels_amadeus_by_city]
  · intro a now m
    refine ⟨?_, ?_, ?_⟩ <;> simp [search_hotels_amadeus_geocode]
  · intro a now m hor
    refine ⟨?_, ?_, ?_⟩ <;>
      simp [search_hotel_offers_amadeus, offers_guard_false a hor]
  · intro a now m
    refine ⟨?_, ?_, ?_⟩ <;> simp [search_activities_amadeus]
  · intro i now m
    refine ⟨?_, ?_, ?_⟩ <;> simp [get_activity_details_amadeus]
  · intro la lo now m
    simp [get_current_conditions]
  · intro la lo hourly now m
    simp [get_weather_forecast]
  · intro la lo now
    simp [get_current_conditions, dgetD, jTruthy]
  · intro f t amt key now m
    simp [convert_currency]
  · intro f t amt key now
    simp [convert_currency, dgetD, jTruthy]
  · intro a now m
    simp [geocode_location]
  · intro a now m
    simp [geocode_location]
  · intro a now
    simp [geocode_location]

theorem claim_C2_envelope_shape_witness :
    (dlookup (search_flights_serpapi
        { departure_id := "DEL", arrival_id := "CDG", outbound_date := "2025-06-15" }
        "K" (fun _ => .ok []) "T") "provider" =
        some (.str "Google Flights (SerpAPI)") ∧
     mdField (search_flights_serpapi
        { departure_id := "DEL", arrival_id := "CDG", outbound_date := "2025-06-15" }
        "K" (fun _ => .ok []) "T") "search_timestamp" = some (.str "T")) ∧
    (dlookup (search_hotels_serpapi
        { location := "Paris", check_in_date := "2025-06-15", check_out_date := "2025-06-20" }
        "K" (fun _ => .ok []) "T") "provider" =
        some (.str "Google Hotels (SerpAPI)") ∧
     mdField (search_hotels_serpapi
        { location := "Paris", check_in_date := "2025-06-15", check_out_date := "2025-06-20" }
        "K" (fun _ => .ok []) "T") "search_timestamp" = some (.str "T")) ∧
    (dlookup (search_events_serpapi { query := "concerts" }
        "K" (fun _ => .ok []) "T") "provider" =
        some (.str "Google Events (SerpAPI)") ∧
     mdField (search_events_serpapi { query := "concerts" }
        "K" (fun _ => .ok []) "T") "search_timestamp" = some (.str "T")) ∧
    (dlookup (search_flights_amadeus
        { originLocationCode := "SYD", destinationLocationCode := "BKK",
          departureDate := "2023-05-02", adults := 1 }
        (fun _ => .ok []) "T") "provider" = some (.str "Amadeus GDS") ∧
     dlookup (search_flights_amadeus
        { originLocationCode := "SYD", destinationLocationCode := "BKK",
          departureDate := "2023-05-02", adults := 1 }
        (fun _ => .ok []) "T") "search_timestamp" = some (.str "T")) ∧
    (dlookup (search_hotel_offers_amadeus { cityCode := some "PAR" }
        (fun _ => .ok []) "T") "provider" = some (.str "Amadeus GDS") ∧
     dlookup (search_hotel_offers_amadeus { cityCode := some "PAR" }
        (fun _ => .ok []) "T") "search_timestamp" = some (.str "T")) ∧
    (dlookup (get_weather_forecast 1 2 false (fun _ => .ok []) "T") "provider" =
        some (.str "open-meteo") ∧
     dlookup (get_weather_forecast 1 2 false (fun _ => .ok []) "T") "search_timestamp" =
        some (.str "T")) ∧
    (search_flights_amadeus
        { originLocationCode := "SYD", destinationLocationCode := "BKK",
          departureDate := "2023-05-02", adults := 1 }
        (fun _ => .responseError "boom") "T" =
          [("error", .str ("Amadeus API error: " ++ "boom"))] ∧
     search_flights_amadeus
        { originLocationCode := "SYD", destinationLocationCode := "BKK",
          departureDate := "2023-05-02", adults := 1 }
        (fun _ => .attrError "boom") "T" =
          [("error", .str ("Unexpected error: " ++ "boom"))] ∧
     search_flights_amadeus
        { originLocationCode := "SYD", destinationLocationCode := "BKK",
          departureDate := "2023-05-02", adults := 1 }
        (fun _ => .exn "boom") "T" =
          [("error", .str ("Unexpected error: " ++ "boom"))]) ∧
    (search_hotel_offers_amadeus { cityCode := some "PAR" }
        (fun _ => .responseError "boom") "T" =
          [("error", .str ("Amadeus API error: " ++ "boom"))] ∧
     search_hotel_offers_amadeus { cityCode := some "PAR" }
        (fun _ => .attrError "boom") "T" =
          [("error", .str ("Unexpected error: " ++ "boom"))] ∧
     search_hotel_offers_amadeus { cityCode := some "PAR" }
        (fun _ => .exn "boom") "T" =
          [("error", .str ("Unexpected error: " ++ "boom"))]) := by
  obtain ⟨⟨s1, s2, s3⟩, ⟨b1, b2, b3, b4, b5, b6⟩, ⟨w1, w2⟩, d,
    ⟨e1, ⟨f1, f2, f3, f4, f5, f6⟩, e3, e4, e5⟩, g6⟩ := claim_C2_envelope_shape
  exact ⟨s1 { departure_id := "DEL", arrival_id := "CDG", outbound_date := "2025-06-15" }
           "K" [] "T" "Economy" [] [] rfl rfl rfl,
         s2 { location := "Paris", check_in_date := "2025-06-15", check_out_date := "2025-06-20" }
           "K" [] "T" [] rfl,
         s3 { query := "concerts" } "K" [] "T" [] rfl,
         b1 { originLocationCode := "SYD", destinationLocationCode := "BKK",
              departureDate := "2023-05-02", adults := 1 } [] "T" rfl,
         b4 { cityCode := some "PAR" } [] "T" (by decide),
         w2 1 2 false [] [] "T" [] [] rfl rfl rfl,
         f1 { originLocationCode := "SYD", destinationLocationCode := "BKK",
              departureDate := "2023-05-02", adults := 1 } "T" "boom" rfl,
         f4 { cityCode := some "PAR" } "T" "boom" (by decide)⟩
